import Mathlib

/-!
Shallow embedding of the pricing and loyalty logic of the CRM restaurant
ordering application (src/core/models.py, src/core/views.py,
src/core/forms.py, src/core/signals.py).

Monetary values (`Decimal` with 2 fractional places in the source) are
modelled as rationals; `Decimal.quantize(Decimal("0.01"), ROUND_HALF_UP)`
is modelled by `quantize2`.
-/

namespace CRM

/-- Round half-up (ties away from zero), as Python's `ROUND_HALF_UP`. -/
def roundHalfUp (x : ℚ) : ℤ :=
  if 0 ≤ x then ⌊x + 1/2⌋ else -⌊-x + 1/2⌋

/-- `Decimal.quantize(Decimal("0.01"), rounding=ROUND_HALF_UP)`:
round to 2 fractional digits, half away from zero. -/
def quantize2 (x : ℚ) : ℚ :=
  (roundHalfUp (100 * x) : ℚ) / 100

/-- A rational that is a whole number of hundredths, i.e. a value
representable as a 2-fractional-digit decimal. -/
def IsCent (x : ℚ) : Prop := ∃ n : ℤ, x = n / 100

instance (x : ℚ) : Decidable (IsCent x) := by
  unfold IsCent
  refine decidable_of_iff (x * 100 = ((x * 100).num : ℚ)) ⟨fun h => ⟨(x * 100).num, ?_⟩, ?_⟩
  · field_simp at h ⊢
    linarith [h]
  · rintro ⟨n, rfl⟩
    have h100 : (100 : ℚ) ≠ 0 := by norm_num
    rw [div_mul_cancel₀ _ h100]
    norm_num

theorem roundHalfUp_intCast (n : ℤ) : roundHalfUp (n : ℚ) = n := by
  unfold roundHalfUp
  have hhalf : ⌊(1/2 : ℚ)⌋ = 0 := by norm_num [Int.floor_eq_zero_iff]
  by_cases h : (0 : ℚ) ≤ (n : ℚ)
  · rw [if_pos h, Int.floor_int_add, hhalf, add_zero]
  · rw [if_neg h]
    have : -(n : ℚ) + 1/2 = ((-n : ℤ) : ℚ) + 1/2 := by push_cast; ring
    rw [this, Int.floor_int_add, hhalf, add_zero, neg_neg]

theorem quantize2_isCent (x : ℚ) : IsCent (quantize2 x) :=
  ⟨roundHalfUp (100 * x), rfl⟩

theorem quantize2_eq_self {x : ℚ} (h : IsCent x) : quantize2 x = x := by
  obtain ⟨n, rfl⟩ := h
  unfold quantize2
  have h100 : (100 : ℚ) ≠ 0 := by norm_num
  rw [mul_div_cancel₀ _ h100, roundHalfUp_intCast]

theorem quantize2_idem (x : ℚ) : quantize2 (quantize2 x) = quantize2 x :=
  quantize2_eq_self (quantize2_isCent x)

theorem IsCent.add {x y : ℚ} (hx : IsCent x) (hy : IsCent y) : IsCent (x + y) := by
  obtain ⟨n, rfl⟩ := hx
  obtain ⟨m, rfl⟩ := hy
  exact ⟨n + m, by push_cast; ring⟩

theorem IsCent.zero : IsCent (0 : ℚ) := ⟨0, by norm_num⟩

theorem IsCent.natMul {x : ℚ} (hx : IsCent x) (q : ℕ) : IsCent (x * q) := by
  obtain ⟨n, rfl⟩ := hx
  exact ⟨n * q, by push_cast; ring⟩

/-! ## Data model (src/core/models.py) -/

/-- `Product` (models.py): `price` is a `DecimalField(decimal_places=2)`,
`discount_price` the same but nullable. Non-monetary fields omitted. -/
structure Product where
  price : ℚ
  discount_price : Option ℚ
deriving Repr, DecidableEq

namespace Product

/-- `Product.get_final_price` (models.py lines 58-66): the discount price
when present, else the regular price, quantized half-up to 2 decimals. -/
def get_final_price (p : Product) : ℚ :=
  quantize2 (match p.discount_price with
    | some d => d
    | none => p.price)

end Product

/-- `CartItem` (models.py): a product reference and a
`PositiveIntegerField` quantity. -/
structure CartItem where
  product : Product
  quantity : ℕ
deriving Repr, DecidableEq

namespace CartItem

/-- `CartItem.total_price` (models.py lines 110-113):
`product.get_final_price() * quantity`, quantized half-up to 2 decimals.
No validation is performed on `quantity`. -/
def total_price (item : CartItem) : ℚ :=
  quantize2 (item.product.get_final_price * (item.quantity : ℚ))

end CartItem

namespace Cart

/-- `Cart.total_price` (models.py lines 87-95): starts from
`Decimal('0.00')`, adds each item's `total_price()`, then quantizes the
sum half-up to 2 decimals. -/
def total_price (items : List CartItem) : ℚ :=
  quantize2 (items.foldl (fun total item => total + item.total_price) 0)

end Cart

theorem cartItem_total_price_isCent (item : CartItem) : IsCent item.total_price :=
  quantize2_isCent _

theorem foldl_add_eq_sum (f : CartItem → ℚ) (items : List CartItem) (a : ℚ) :
    items.foldl (fun total item => total + f item) a
      = a + (items.map f).sum := by
  induction items generalizing a with
  | nil => simp
  | cons x xs ih => simp [List.foldl_cons, ih, add_assoc]

theorem sum_line_totals_isCent (items : List CartItem) :
    IsCent (items.map CartItem.total_price).sum := by
  induction items with
  | nil => simpa using IsCent.zero
  | cons x xs ih => simpa using (cartItem_total_price_isCent x).add ih

/-- The cart total is exactly the sum of the line totals: the final
quantization is a no-op because every line total already has 2 decimals. -/
theorem cart_total_price_eq_sum (items : List CartItem) :
    Cart.total_price items = (items.map CartItem.total_price).sum := by
  unfold Cart.total_price
  rw [foldl_add_eq_sum, zero_add]
  exact quantize2_eq_self (sum_line_totals_isCent items)

/-! ## Request handlers (src/core/views.py) -/

/-- Python's `price or Decimal('0.00')` on a non-null `Decimal`: a falsy
(zero) price becomes `0.00`, anything else is returned unchanged. -/
def orZero (p : ℚ) : ℚ := if p = 0 then 0 else p

theorem orZero_eq (p : ℚ) : orZero p = p := by
  unfold orZero
  split <;> simp_all

/-- `view_cart` (views.py lines 197-207): the displayed total accumulates
`(item.product.price or Decimal('0.00')) * item.quantity` over the cart's
lines, starting from `Decimal('0.00')`. It uses the raw `price` field,
not `get_final_price`, and applies no quantization. -/
def view_cart_total (items : List CartItem) : ℚ :=
  items.foldl (fun total item => total + orZero item.product.price * (item.quantity : ℚ)) 0

/-- The total `checkout` (views.py lines 253 and 270) computes:
`sum((item.product.price or Decimal('0.00')) * item.quantity for item in cart_items)`.
Again the raw `price` field, with no quantization. -/
def checkout_total (items : List CartItem) : ℚ :=
  items.foldl (fun total item => total + orZero item.product.price * (item.quantity : ℚ)) 0

/-- `OrderItem` (models.py lines 146-154): product snapshot with the
quantity and the price captured at order time. -/
structure OrderItem where
  product : Product
  quantity : ℕ
  price : ℚ
deriving Repr, DecidableEq

/-- The monetary content of an `Order` row created by `checkout`
(models.py lines 119-140): persisted total and item snapshots. -/
structure Order where
  total_price : ℚ
  items : List OrderItem
deriving Repr, DecidableEq

/-- `checkout` on an empty cart redirects with "Your cart is empty"
before any order is created (views.py lines 241-243). -/
inductive CheckoutError where
  | EmptyCartError
deriving Repr, DecidableEq

/-- `checkout` (views.py lines 237-271), state-passing over the cart:
an empty cart fails with `EmptyCartError` and creates no order; otherwise
an order is persisted with `total_price = checkout_total`, one
`OrderItem` per line priced at the raw `item.product.price`
(views.py line 258), and the cart's lines are deleted. -/
def checkout (items : List CartItem) : Except CheckoutError (Order × List CartItem) :=
  if items.isEmpty then
    .error .EmptyCartError
  else
    .ok ({ total_price := checkout_total items,
           items := items.map fun item => ⟨item.product, item.quantity, item.product.price⟩ },
         [])

/-- Outcome of `update_cart` on one cart line. -/
inductive UpdateCartResult where
  | updated (item : CartItem)
  | deleted
  | invalidQuantityMessage
deriving Repr, DecidableEq

/-- `update_cart` (views.py lines 210-224): `int(request.POST["quantity"])`
is modelled as `Option ℤ` (`none` when `int()` raises). A positive
quantity updates the line, a non-positive one deletes it, and a
non-integer value is caught, reported as "Invalid quantity." and leaves
the line unchanged. No `InvalidQuantity` exception exists. -/
def update_cart (item : CartItem) (quantity : Option ℤ) : UpdateCartResult :=
  match quantity with
  | none => .invalidQuantityMessage
  | some q => if 0 < q then .updated { item with quantity := q.toNat } else .deleted

/-! ## Loyalty ledger

views.py imports `get_profile`, `apply_redemption`, `redeem_points` and
`award_points_for_order` from `core/loyalty.py`, which is not part of the
sources; the operations below are modelled from the specification's
description of the Loyalty Ledger. `PointsTransaction`, `Profile` and the
transaction kinds come from models.py. -/

/-- `PointsTransaction.KIND_CHOICES` (models.py lines 230-232). -/
inductive TxnKind where
  | EARN
  | REDEEM
deriving Repr, DecidableEq

/-- `PointsTransaction` (models.py lines 229-246): kind, positive points,
monetary reference amount, optional order reference. -/
structure PointsTxn where
  kind : TxnKind
  points : ℕ
  amount : ℚ
  order_id : Option ℕ
deriving Repr, DecidableEq

/-- Ledger state per user: the `Profile.points_balance`
(a `PositiveIntegerField`, models.py line 219) plus the append-only list
of that user's `PointsTransaction` rows, newest first. -/
structure LedgerState where
  points_balance : ℕ
  txns : List PointsTxn
deriving Repr, DecidableEq

/-- Ledger error kinds named by the specification. -/
inductive LedgerError where
  | InsufficientPoints
  | InvalidRedemptionAmount
deriving Repr, DecidableEq

/-- Modelled from the spec: the fixed conversion rate, Rs of discount per
redeemed point — a configuration constant; the spec's scenarios fix it at
1 point = Rs 1. -/
def REDEEM_RATE : ℚ := 1

/-- Modelled from the spec: points earned per whole currency unit of an
order's total — a configuration constant, 1 point per whole Rs. -/
def EARN_RATE : ℚ := 1

/-- Modelled from the spec: `redeem_points(user, points_requested)`
(`core/loyalty.py`, missing from the sources) validates that
`points_requested` is a non-negative integer not exceeding the current
balance (failing with `InvalidRedemptionAmount` resp.
`InsufficientPoints`), converts points to a discount at `REDEEM_RATE`,
appends a REDEEM transaction and decrements the balance, returning the
discount. Failure returns no state: the transaction append and the
balance decrement happen together or not at all. -/
def redeem_points (st : LedgerState) (points_requested : ℤ) :
    Except LedgerError (ℚ × LedgerState) :=
  if points_requested < 0 then
    .error .InvalidRedemptionAmount
  else if (st.points_balance : ℤ) < points_requested then
    .error .InsufficientPoints
  else
    let discount : ℚ := (points_requested : ℚ) * REDEEM_RATE
    .ok (discount,
      { points_balance := st.points_balance - points_requested.toNat,
        txns := ⟨.REDEEM, points_requested.toNat, discount, none⟩ :: st.txns })

/-- Modelled from the spec: `apply_redemption(user, points_requested,
order_total)` (`core/loyalty.py`, missing from the sources) clamps
`points_requested` so the discount cannot exceed `order_total`, delegates
to `redeem_points` with the clamped value, and returns
`(points_applied, discount_amount)` with the new state. -/
def apply_redemption (st : LedgerState) (points_requested : ℤ) (order_total : ℚ) :
    Except LedgerError (ℤ × ℚ × LedgerState) :=
  let clamped := min points_requested ⌊order_total / REDEEM_RATE⌋
  match redeem_points st clamped with
  | .error e => .error e
  | .ok (discount, st') => .ok (clamped, discount, st')

/-- Modelled from the spec: `award_points_for_order(user, order)`
(`core/loyalty.py`, missing from the sources) is a silent no-op when the
order total is zero or negative; otherwise it appends an EARN transaction
referencing the order id and increments the balance by the points
computed from the total at `EARN_RATE`. -/
def award_points_for_order (st : LedgerState) (order_total : ℚ) (order_id : ℕ) :
    LedgerState :=
  if order_total ≤ 0 then
    st
  else
    let pts : ℕ := ⌊order_total * EARN_RATE⌋.toNat
    { points_balance := st.points_balance + pts,
      txns := ⟨.EARN, pts, order_total, some order_id⟩ :: st.txns }

/-! ## User registration (src/core/models.py signals, src/core/forms.py) -/

/-- The rows relevant to registration: `Profile` rows as
`(user id, points_balance)` pairs and `Cart` rows as user ids. -/
structure RegDB where
  profiles : List (ℕ × ℕ)
  carts : List ℕ
deriving Repr, DecidableEq

/-- Whether a `Profile` row exists for the user (the `Profile.user`
one-to-one constraint, models.py line 216, admits at most one). -/
def hasProfile (db : RegDB) (uid : ℕ) : Bool :=
  db.profiles.any fun p => p.1 == uid

/-- `Profile.objects.get_or_create(user=instance)` (models.py line 256):
creates a profile with the default `points_balance` 0 only when none
exists. -/
def profile_get_or_create (db : RegDB) (uid : ℕ) : RegDB :=
  if hasProfile db uid then db
  else { db with profiles := (uid, 0) :: db.profiles }

/-- `Cart.objects.get_or_create(user=instance)` (models.py line 258). -/
def cart_get_or_create (db : RegDB) (uid : ℕ) : RegDB :=
  if db.carts.contains uid then db
  else { db with carts := uid :: db.carts }

/-- The `post_save` receivers on `User` for a newly created user
(models.py lines 252-267): `create_user_related_objects` runs
`get_or_create` for the Profile and the Cart; `save_user_related_objects`
then re-saves the (now existing) profile, which changes no modelled
state. -/
def user_post_save_created (db : RegDB) (uid : ℕ) : RegDB :=
  cart_get_or_create (profile_get_or_create db uid) uid

/-- Violation of the `Profile.user` one-to-one uniqueness constraint. -/
inductive RegError where
  | ProfileUniqueViolation
deriving Repr, DecidableEq

/-- `Profile.objects.create(user=user, ...)` (forms.py lines 148-152):
unconditionally inserts a new `Profile` row; the one-to-one constraint on
`Profile.user` rejects the insert when a profile already exists. -/
def profile_create (db : RegDB) (uid : ℕ) : Except RegError RegDB :=
  if hasProfile db uid then .error .ProfileUniqueViolation
  else .ok { db with profiles := (uid, 0) :: db.profiles }

/-- `CustomUserCreationForm.save(commit=True)` (forms.py lines 143-153):
`user.save()` fires the `post_save` signal receivers, then the form calls
`Profile.objects.create` for the same user. -/
def custom_form_save (db : RegDB) (uid : ℕ) : Except RegError RegDB :=
  profile_create (user_post_save_created db uid) uid

/-! ## Claim theorems -/

/-- C5: for every product and positive integer quantity,
`CartItem.total_price` equals the effective price times the quantity,
rounded half-up to 2 decimal places; concretely, price 500.00 with
discount_price 450.00 at quantity 3 gives a line total of 1350.00. -/
theorem C5_line_total (p : Product) (q : ℕ) (hq : 0 < q) :
    CartItem.total_price ⟨p, q⟩ = quantize2 (p.get_final_price * (q : ℚ)) ∧
    CartItem.total_price ⟨⟨500, some 450⟩, 3⟩ = 1350 := by
  refine ⟨rfl, ?_⟩
  norm_num [CartItem.total_price, Product.get_final_price, quantize2, roundHalfUp]

theorem C5_witness :
    0 < 3 ∧ CartItem.total_price ⟨⟨500, some 450⟩, 3⟩ = 1350 :=
  ⟨by decide, (C5_line_total ⟨500, some 450⟩ 3 (by decide)).2⟩

/-- C6: `Product.get_final_price` always returns a 2-fractional-digit
decimal; with the stored prices 2-decimal (as `DecimalField(decimal_places=2)`
guarantees) it equals `price` when `discount_price` is absent, equals
`discount_price` when present, and hence never exceeds `price` when the
discount is at most the price. -/
theorem C6_effective_price (p : Product) :
    IsCent p.get_final_price ∧
    (p.discount_price = none → IsCent p.price → p.get_final_price = p.price) ∧
    (∀ d : ℚ, p.discount_price = some d → IsCent d →
      p.get_final_price = d ∧ (d ≤ p.price → p.get_final_price ≤ p.price)) := by
  refine ⟨quantize2_isCent _, ?_, ?_⟩
  · intro hnone hc
    simp only [Product.get_final_price, hnone]
    exact quantize2_eq_self hc
  · intro d hd hc
    simp only [Product.get_final_price, hd]
    refine ⟨quantize2_eq_self hc, ?_⟩
    intro hle
    rw [quantize2_eq_self hc]
    exact hle

theorem C6_witness :
    Product.get_final_price ⟨500, some 450⟩ = 450 ∧
    Product.get_final_price ⟨500, some 450⟩ ≤ 500 ∧
    Product.get_final_price ⟨500, none⟩ = 500 :=
  ⟨((C6_effective_price ⟨500, some 450⟩).2.2 450 rfl ⟨45000, by norm_num⟩).1,
   ((C6_effective_price ⟨500, some 450⟩).2.2 450 rfl ⟨45000, by norm_num⟩).2 (by norm_num),
   (C6_effective_price ⟨500, none⟩).2.1 rfl ⟨50000, by norm_num⟩⟩

/-- C4: the cart total equals the sum of the line totals exactly (the
final half-up rounding is applied once, after summation, and re-rounding
an already-2-decimal value is a no-op); the empty cart totals zero; and
lines totaling 1350.00 and 220.00 give a cart total of 1570.00. -/
theorem C4_cart_total (lines : List CartItem) :
    Cart.total_price lines = (lines.map CartItem.total_price).sum ∧
    Cart.total_price [] = 0 ∧
    (∀ x : ℚ, quantize2 (quantize2 x) = quantize2 x) ∧
    CartItem.total_price ⟨⟨500, some 450⟩, 3⟩ = 1350 ∧
    CartItem.total_price ⟨⟨110, none⟩, 2⟩ = 220 ∧
    Cart.total_price [⟨⟨500, some 450⟩, 3⟩, ⟨⟨110, none⟩, 2⟩] = 1570 := by
  refine ⟨cart_total_price_eq_sum lines, ?_, quantize2_idem, ?_, ?_, ?_⟩
  · norm_num [Cart.total_price, quantize2, roundHalfUp]
  · norm_num [CartItem.total_price, Product.get_final_price, quantize2, roundHalfUp]
  · norm_num [CartItem.total_price, Product.get_final_price, quantize2, roundHalfUp]
  · norm_num [Cart.total_price, CartItem.total_price, Product.get_final_price,
      quantize2, roundHalfUp]

/-- C8: checkout on a cart with no lines fails with `EmptyCartError` and
creates no order, and the empty cart's total is zero. -/
theorem C8_empty_cart_checkout :
    checkout [] = .error CheckoutError.EmptyCartError ∧
    Cart.total_price [] = 0 := by
  refine ⟨rfl, ?_⟩
  norm_num [Cart.total_price, quantize2, roundHalfUp]

/-- C1: the totals disagree. For the cart with one line — product price
500.00, discount_price 450.00, quantity 1 — the Order Pricing total
(`Cart.total_price`, built on `get_final_price`) is 450.00, yet both the
total `view_cart` displays and the `total_price` that `checkout` persists
on the order are 500.00, computed from the raw `price` field. -/
theorem C1_totals_divergence :
    Cart.total_price [⟨⟨500, some 450⟩, 1⟩] = 450 ∧
    view_cart_total [⟨⟨500, some 450⟩, 1⟩] = 500 ∧
    checkout_total [⟨⟨500, some 450⟩, 1⟩] = 500 ∧
    checkout [⟨⟨500, some 450⟩, 1⟩]
      = .ok (⟨500, [⟨⟨500, some 450⟩, 1, 500⟩]⟩, []) := by
  refine ⟨?_, ?_, ?_, ?_⟩ <;>
    norm_num [Cart.total_price, CartItem.total_price, Product.get_final_price,
      quantize2, roundHalfUp, view_cart_total, checkout_total, checkout, orZero]

/-- C9 counterexample: at quantity 0 — not a positive integer —
`CartItem.total_price` does not fail with `InvalidQuantity` (no such
error exists anywhere in the code); it returns the value 0.00. -/
theorem C9_counterexample :
    CartItem.total_price ⟨⟨500, none⟩, 0⟩ = 0 := by
  norm_num [CartItem.total_price, Product.get_final_price, quantize2, roundHalfUp]

/-- C9 amended: `CartItem.total_price` performs no quantity validation:
it is total on natural quantities and returns 0.00 at quantity 0. The
only handling of bad quantities is in `update_cart`, which deletes the
line when the parsed quantity is non-positive and reports
"Invalid quantity." (leaving the line unchanged) when parsing fails. -/
theorem C9_no_quantity_validation (p : Product) (item : CartItem) (q : ℤ)
    (hq : q ≤ 0) :
    CartItem.total_price ⟨p, 0⟩ = 0 ∧
    update_cart item (some q) = .deleted ∧
    update_cart item none = .invalidQuantityMessage := by
  refine ⟨?_, ?_, rfl⟩
  · norm_num [CartItem.total_price, quantize2, roundHalfUp]
  · simp [update_cart, not_lt.mpr hq]

theorem C9_witness :
    CartItem.total_price ⟨⟨500, some 450⟩, 0⟩ = 0 ∧
    update_cart ⟨⟨500, some 450⟩, 2⟩ (some 0) = .deleted ∧
    update_cart ⟨⟨500, some 450⟩, 2⟩ none = .invalidQuantityMessage :=
  C9_no_quantity_validation ⟨500, some 450⟩ ⟨⟨500, some 450⟩, 2⟩ 0 (by decide)

/-- C2: whenever `apply_redemption` succeeds, the returned discount does
not exceed the supplied order total — for any requested points, including
values exceeding the balance or the order total; and the concrete
scenario: balance 100, rate 1 point = Rs 1, requesting 150 points against
Rs 80 yields 80 points applied, discount Rs 80.00 and new balance 20. -/
theorem redeem_points_ok_discount {st : LedgerState} {c : ℤ} {d : ℚ}
    {st' : LedgerState} (h : redeem_points st c = .ok (d, st')) :
    d = (c : ℚ) * REDEEM_RATE := by
  unfold redeem_points at h
  split_ifs at h <;> simp_all

theorem C2_apply_redemption_clamps :
    (∀ (st : LedgerState) (pts : ℤ) (total : ℚ) (p : ℤ) (d : ℚ) (st' : LedgerState),
      apply_redemption st pts total = .ok (p, d, st') → d ≤ total) ∧
    apply_redemption ⟨100, []⟩ 150 80
      = .ok (80, 80, ⟨20, [⟨.REDEEM, 80, 80, none⟩]⟩) := by
  constructor
  · intro st pts total p d st' h
    simp only [apply_redemption] at h
    cases hr : redeem_points st (min pts ⌊total / REDEEM_RATE⌋) with
    | error e =>
      rw [hr] at h
      simp at h
    | ok v =>
      obtain ⟨d2, st2⟩ := v
      rw [hr] at h
      simp only [Except.ok.injEq, Prod.mk.injEq] at h
      obtain ⟨hp, hd, hst⟩ := h
      rw [← hd, redeem_points_ok_discount hr]
      simp only [REDEEM_RATE, mul_one, div_one]
      calc ((min pts ⌊total⌋ : ℤ) : ℚ)
          ≤ ((⌊total⌋ : ℤ) : ℚ) := by exact_mod_cast min_le_right _ _
        _ ≤ total := Int.floor_le _
  · norm_num [apply_redemption, redeem_points, REDEEM_RATE]
    decide

theorem C2_witness : (80 : ℚ) ≤ 80 :=
  C2_apply_redemption_clamps.1 ⟨100, []⟩ 150 80 80 80
    ⟨20, [⟨.REDEEM, 80, 80, none⟩]⟩ C2_apply_redemption_clamps.2

/-- C3: `redeem_points` with a request strictly above the current balance
always fails with `InsufficientPoints`; no new ledger state is produced,
so no REDEEM transaction is appended and the balance is unchanged. -/
theorem C3_redeem_insufficient (st : LedgerState) (pts : ℤ)
    (h : (st.points_balance : ℤ) < pts) :
    redeem_points st pts = .error .InsufficientPoints := by
  have h0 : ¬ pts < 0 := by omega
  simp [redeem_points, h0, h]

theorem C3_witness :
    redeem_points ⟨100, []⟩ 150 = .error .InsufficientPoints :=
  C3_redeem_insufficient ⟨100, []⟩ 150 (by decide)

/-- C7: `award_points_for_order` is a silent no-op when the order total
is zero or negative — no EARN transaction, balance unchanged — and for a
positive total it appends an EARN transaction referencing the order id
and increments the balance by the computed points. -/
theorem C7_award_points (st : LedgerState) (total : ℚ) (oid : ℕ) :
    (total ≤ 0 → award_points_for_order st total oid = st) ∧
    (0 < total →
      award_points_for_order st total oid
        = { points_balance := st.points_balance + ⌊total * EARN_RATE⌋.toNat,
            txns := ⟨.EARN, ⌊total * EARN_RATE⌋.toNat, total, some oid⟩ :: st.txns }) := by
  constructor
  · intro h
    simp [award_points_for_order, h]
  · intro h
    simp [award_points_for_order, not_le.mpr h]

theorem C7_witness :
    award_points_for_order ⟨37, []⟩ 0 5 = ⟨37, []⟩ ∧
    award_points_for_order ⟨37, []⟩ 250 5 = ⟨287, [⟨.EARN, 250, 250, some 5⟩]⟩ := by
  constructor
  · exact (C7_award_points ⟨37, []⟩ 0 5).1 le_rfl
  · rw [(C7_award_points ⟨37, []⟩ 250 5).2 (by norm_num)]
    norm_num [EARN_RATE]
    decide

/-- C10: creating a user through `CustomUserCreationForm.save` creates a
profile twice: the `post_save` signal creates a Profile (points_balance 0)
and a Cart for the new user, then the form's own `Profile.objects.create`
for the same user violates the `Profile.user` one-to-one constraint. -/
theorem C10_double_profile_creation (db : RegDB) (uid : ℕ)
    (h : hasProfile db uid = false) :
    (uid, 0) ∈ (user_post_save_created db uid).profiles ∧
    (user_post_save_created db uid).carts.contains uid = true ∧
    custom_form_save db uid = .error .ProfileUniqueViolation := by
  have hp : (profile_get_or_create db uid).profiles = (uid, 0) :: db.profiles := by
    simp [profile_get_or_create, h]
  have hprofiles : (user_post_save_created db uid).profiles = (uid, 0) :: db.profiles := by
    unfold user_post_save_created cart_get_or_create
    split <;> simp [hp]
  have hhas : hasProfile (user_post_save_created db uid) uid = true := by
    simp [hasProfile, hprofiles]
  refine ⟨?_, ?_, ?_⟩
  · rw [hprofiles]
    exact List.mem_cons_self _ _
  · unfold user_post_save_created cart_get_or_create
    split
    · assumption
    · simp
  · simp [custom_form_save, profile_create, hhas]

theorem C10_witness :
    (1, 0) ∈ (user_post_save_created ⟨[], []⟩ 1).profiles ∧
    (user_post_save_created ⟨[], []⟩ 1).carts.contains 1 = true ∧
    custom_form_save ⟨[], []⟩ 1 = .error .ProfileUniqueViolation :=
  C10_double_profile_creation ⟨[], []⟩ 1 (by decide)

end CRM
